import Mathlib

/-!
Shallow embedding of the AVR relocation backend (`ELF/Arch/AVR.cpp`):
the relocation-kind classifier `AVR::getRelExpr` and the patch engine
`AVR::relocateOne`, together with the bit-transform helpers
`calculateForLDI`, `adjustRelativeBranch`, `adjustPM` and `adjustNeg`.

The output image is modelled as a byte buffer `Nat → Nat` (each cell
holding one byte).  Machine integers are modelled by their
two's-complement bit patterns as `Nat`, with explicit reduction modulo
`2 ^ 16` for the `int16_t` working value `SRel`, and an explicit 32-bit
sign extension `sext32` wherever C's integer promotion of `int16_t` to
`int` is observable (arithmetic right shifts and wide masks).
Diagnostics emitted through lld's `error` sink are collected in a list.
-/

/-- AVR relocation type code, numbered as in the AVR ELF ABI. -/
@[simp] def R_AVR_NONE : Nat := 0
/-- AVR relocation type code, numbered as in the AVR ELF ABI. -/
@[simp] def R_AVR_32 : Nat := 1
/-- AVR relocation type code, numbered as in the AVR ELF ABI. -/
@[simp] def R_AVR_7_PCREL : Nat := 2
/-- AVR relocation type code, numbered as in the AVR ELF ABI. -/
@[simp] def R_AVR_13_PCREL : Nat := 3
/-- AVR relocation type code, numbered as in the AVR ELF ABI. -/
@[simp] def R_AVR_16 : Nat := 4
/-- AVR relocation type code, numbered as in the AVR ELF ABI. -/
@[simp] def R_AVR_16_PM : Nat := 5
/-- AVR relocation type code, numbered as in the AVR ELF ABI. -/
@[simp] def R_AVR_LO8_LDI : Nat := 6
/-- AVR relocation type code, numbered as in the AVR ELF ABI. -/
@[simp] def R_AVR_HI8_LDI : Nat := 7
/-- AVR relocation type code, numbered as in the AVR ELF ABI. -/
@[simp] def R_AVR_HH8_LDI : Nat := 8
/-- AVR relocation type code, numbered as in the AVR ELF ABI. -/
@[simp] def R_AVR_LO8_LDI_NEG : Nat := 9
/-- AVR relocation type code, numbered as in the AVR ELF ABI. -/
@[simp] def R_AVR_HI8_LDI_NEG : Nat := 10
/-- AVR relocation type code, numbered as in the AVR ELF ABI. -/
@[simp] def R_AVR_HH8_LDI_NEG : Nat := 11
/-- AVR relocation type code, numbered as in the AVR ELF ABI. -/
@[simp] def R_AVR_LO8_LDI_PM : Nat := 12
/-- AVR relocation type code, numbered as in the AVR ELF ABI. -/
@[simp] def R_AVR_HI8_LDI_PM : Nat := 13
/-- AVR relocation type code, numbered as in the AVR ELF ABI. -/
@[simp] def R_AVR_HH8_LDI_PM : Nat := 14
/-- AVR relocation type code, numbered as in the AVR ELF ABI. -/
@[simp] def R_AVR_LO8_LDI_PM_NEG : Nat := 15
/-- AVR relocation type code, numbered as in the AVR ELF ABI. -/
@[simp] def R_AVR_HI8_LDI_PM_NEG : Nat := 16
/-- AVR relocation type code, numbered as in the AVR ELF ABI. -/
@[simp] def R_AVR_HH8_LDI_PM_NEG : Nat := 17
/-- AVR relocation type code, numbered as in the AVR ELF ABI. -/
@[simp] def R_AVR_CALL : Nat := 18
/-- AVR relocation type code, numbered as in the AVR ELF ABI. -/
@[simp] def R_AVR_LDI : Nat := 19
/-- AVR relocation type code, numbered as in the AVR ELF ABI. -/
@[simp] def R_AVR_6 : Nat := 20
/-- AVR relocation type code, numbered as in the AVR ELF ABI. -/
@[simp] def R_AVR_6_ADIW : Nat := 21
/-- AVR relocation type code, numbered as in the AVR ELF ABI. -/
@[simp] def R_AVR_MS8_LDI : Nat := 22
/-- AVR relocation type code, numbered as in the AVR ELF ABI. -/
@[simp] def R_AVR_MS8_LDI_NEG : Nat := 23
/-- AVR relocation type code, numbered as in the AVR ELF ABI. -/
@[simp] def R_AVR_LO8_LDI_GS : Nat := 24
/-- AVR relocation type code, numbered as in the AVR ELF ABI. -/
@[simp] def R_AVR_HI8_LDI_GS : Nat := 25
/-- AVR relocation type code, numbered as in the AVR ELF ABI. -/
@[simp] def R_AVR_8 : Nat := 26
/-- AVR relocation type code, numbered as in the AVR ELF ABI. -/
@[simp] def R_AVR_8_LO8 : Nat := 27
/-- AVR relocation type code, numbered as in the AVR ELF ABI. -/
@[simp] def R_AVR_8_HI8 : Nat := 28
/-- AVR relocation type code, numbered as in the AVR ELF ABI. -/
@[simp] def R_AVR_8_HLO8 : Nat := 29
/-- AVR relocation type code, numbered as in the AVR ELF ABI. -/
@[simp] def R_AVR_LDS_STS_16 : Nat := 33
/-- AVR relocation type code, numbered as in the AVR ELF ABI. -/
@[simp] def R_AVR_PORT6 : Nat := 34
/-- AVR relocation type code, numbered as in the AVR ELF ABI. -/
@[simp] def R_AVR_PORT5 : Nat := 35

/-- A diagnostic emitted through lld's `error` sink: either
`getRelExpr`'s "unknown relocation type" message or `relocateOne`'s
"unrecognized reloc" message. -/
inductive Diag where
  | unknownRelocationType (ty : Nat)
  | unrecognizedReloc (loc ty : Nat)
  deriving DecidableEq, Repr

/-- The subset of lld's `RelExpr` classification returned by
`AVR::getRelExpr`. -/
inductive RelExpr where
  | R_ABS
  | R_PC
  | R_HINT
  deriving DecidableEq, Repr

/-- Store one byte (the low 8 bits of `v`) at index `i` of the buffer. -/
def writeByte (buf : Nat → Nat) (i v : Nat) : Nat → Nat :=
  fun j => if j = i then v % 256 else buf j

/-- `llvm::support::endian::read16le`: 16-bit little-endian load. -/
def read16le (buf : Nat → Nat) (loc : Nat) : Nat :=
  buf loc % 256 + buf (loc + 1) % 256 * 256

/-- `llvm::support::endian::write16le`: 16-bit little-endian store
(the value is truncated to 16 bits, as by conversion to `uint16_t`). -/
def write16le (buf : Nat → Nat) (loc v : Nat) : Nat → Nat :=
  writeByte (writeByte buf loc v) (loc + 1) (v >>> 8)

/-- The 16-bit two's-complement pattern of `v`, sign-extended to a
32-bit pattern: models C's integer promotion of the `int16_t` value
`SRel` to `int` before arithmetic. -/
def sext32 (v : Nat) : Nat :=
  if 32768 ≤ v % 65536 then v % 65536 + 0xffff0000 else v % 65536

/-- `adjustRelativeBranch`: `Val -= 2` on the `int16_t` working value
(two's-complement wrap of the 16-bit pattern). -/
def adjustRelativeBranch (v : Nat) : Nat :=
  (v + 65534) % 65536

/-- `adjustPM`: `Val >>= 1`, an arithmetic right shift of the
`int16_t` working value, on its 16-bit pattern. -/
def adjustPM (v : Nat) : Nat :=
  (sext32 v >>> 1) % 65536

/-- `adjustNeg`: `Val *= -1` on the `int16_t` working value
(two's-complement negation of the 16-bit pattern). -/
def adjustNeg (v : Nat) : Nat :=
  (65536 - v % 65536) % 65536

/-- `calculateForLDI(X, Val)`: split the low byte of `Val` into the two
immediate nibbles of the LDI instruction word `X`. -/
def calculateForLDI (X Val : Nat) : Nat :=
  (X &&& 0xf0f0) ||| (Val &&& 0xf) ||| ((Val <<< 4) &&& 0xf00)

/-- `AVR::getRelExpr`: classify a relocation type code as absolute or
PC-relative, or emit the unknown-relocation-type diagnostic and return
`R_HINT`. -/
def getRelExpr (Ty : Nat) : RelExpr × List Diag :=
  if Ty = R_AVR_7_PCREL ∨ Ty = R_AVR_13_PCREL then
    (RelExpr.R_PC, [])
  else if Ty = R_AVR_LO8_LDI ∨ Ty = R_AVR_LDI ∨ Ty = R_AVR_6 ∨
      Ty = R_AVR_6_ADIW ∨ Ty = R_AVR_HI8_LDI ∨ Ty = R_AVR_HH8_LDI ∨
      Ty = R_AVR_MS8_LDI ∨ Ty = R_AVR_LO8_LDI_NEG ∨ Ty = R_AVR_HI8_LDI_NEG ∨
      Ty = R_AVR_HH8_LDI_NEG ∨ Ty = R_AVR_MS8_LDI_NEG ∨ Ty = R_AVR_LO8_LDI_GS ∨
      Ty = R_AVR_LO8_LDI_PM ∨ Ty = R_AVR_HI8_LDI_GS ∨ Ty = R_AVR_HI8_LDI_PM ∨
      Ty = R_AVR_HH8_LDI_PM ∨ Ty = R_AVR_LO8_LDI_PM_NEG ∨ Ty = R_AVR_HI8_LDI_PM_NEG ∨
      Ty = R_AVR_HH8_LDI_PM_NEG ∨ Ty = R_AVR_8 ∨ Ty = R_AVR_8_LO8 ∨
      Ty = R_AVR_8_HI8 ∨ Ty = R_AVR_8_HLO8 ∨ Ty = R_AVR_CALL ∨
      Ty = R_AVR_16 ∨ Ty = R_AVR_16_PM ∨ Ty = R_AVR_LDS_STS_16 ∨
      Ty = R_AVR_PORT6 ∨ Ty = R_AVR_PORT5 then
    (RelExpr.R_ABS, [])
  else
    (RelExpr.R_HINT, [Diag.unknownRelocationType Ty])

/-- `AVR::relocateOne`: patch the resolved value `Val` into the
instruction word(s) at `Loc`, returning the updated buffer together
with any diagnostic.  `int16_t SRel = Val` is the silent 16-bit
truncation; promotions of `SRel` to `int` are modelled with `sext32`. -/
def relocateOne (buf : Nat → Nat) (Loc Ty Val : Nat) : (Nat → Nat) × List Diag :=
  let SRel : Nat := Val % 65536
  let X : Nat := read16le buf Loc
  if Ty = R_AVR_7_PCREL then
    let SRel := adjustRelativeBranch SRel
    (write16le buf Loc ((X &&& 0xfc07) ||| (((sext32 SRel >>> 1) <<< 3) &&& 0x3f8)), [])
  else if Ty = R_AVR_13_PCREL then
    let SRel := adjustRelativeBranch SRel
    let SRel := adjustPM SRel
    (write16le buf Loc ((X &&& 0xf000) ||| (SRel &&& 0xfff)), [])
  else if Ty = R_AVR_LO8_LDI ∨ Ty = R_AVR_LDI then
    (write16le buf Loc (calculateForLDI X SRel), [])
  else if Ty = R_AVR_6 then
    (write16le buf Loc ((X &&& 0xd3f8) |||
      ((SRel &&& 7) ||| ((SRel &&& (3 <<< 3)) <<< 7) ||| ((SRel &&& (1 <<< 5)) <<< 8))), [])
  else if Ty = R_AVR_6_ADIW then
    (write16le buf Loc ((X &&& 0xff30) ||| (SRel &&& 0xf) ||| ((SRel &&& 0x30) <<< 2)), [])
  else if Ty = R_AVR_HI8_LDI then
    let SRel := (sext32 SRel >>> 8) &&& 0xff
    (write16le buf Loc (calculateForLDI X SRel), [])
  else if Ty = R_AVR_HH8_LDI then
    let SRel := (sext32 SRel >>> 16) &&& 0xff
    (write16le buf Loc (calculateForLDI X SRel), [])
  else if Ty = R_AVR_MS8_LDI then
    let SRel := (sext32 SRel >>> 24) &&& 0xff
    (write16le buf Loc (calculateForLDI X SRel), [])
  else if Ty = R_AVR_LO8_LDI_NEG then
    let SRel := adjustNeg SRel
    (write16le buf Loc (calculateForLDI X SRel), [])
  else if Ty = R_AVR_HI8_LDI_NEG then
    let SRel := adjustNeg SRel
    let SRel := (sext32 SRel >>> 8) &&& 0xff
    (write16le buf Loc (calculateForLDI X SRel), [])
  else if Ty = R_AVR_HH8_LDI_NEG then
    let SRel := adjustNeg SRel
    let SRel := (sext32 SRel >>> 16) &&& 0xff
    (write16le buf Loc (calculateForLDI X SRel), [])
  else if Ty = R_AVR_MS8_LDI_NEG then
    let SRel := adjustNeg SRel
    let SRel := (sext32 SRel >>> 24) &&& 0xff
    (write16le buf Loc (calculateForLDI X SRel), [])
  else if Ty = R_AVR_LO8_LDI_GS ∨ Ty = R_AVR_LO8_LDI_PM then
    let SRel := adjustPM SRel
    (write16le buf Loc (calculateForLDI X SRel), [])
  else if Ty = R_AVR_HI8_LDI_GS ∨ Ty = R_AVR_HI8_LDI_PM then
    let SRel := adjustPM SRel
    let SRel := (sext32 SRel >>> 8) &&& 0xff
    (write16le buf Loc (calculateForLDI X SRel), [])
  else if Ty = R_AVR_HH8_LDI_PM then
    let SRel := adjustPM SRel
    let SRel := (sext32 SRel >>> 16) &&& 0xff
    (write16le buf Loc (calculateForLDI X SRel), [])
  else if Ty = R_AVR_LO8_LDI_PM_NEG then
    let SRel := adjustNeg SRel
    let SRel := adjustPM SRel
    (write16le buf Loc (calculateForLDI X SRel), [])
  else if Ty = R_AVR_HI8_LDI_PM_NEG then
    let SRel := adjustNeg SRel
    let SRel := adjustPM SRel
    let SRel := (sext32 SRel >>> 8) &&& 0xff
    (write16le buf Loc (calculateForLDI X SRel), [])
  else if Ty = R_AVR_HH8_LDI_PM_NEG then
    let SRel := adjustNeg SRel
    let SRel := adjustPM SRel
    let SRel := (sext32 SRel >>> 16) &&& 0xff
    (write16le buf Loc (calculateForLDI X SRel), [])
  else if Ty = R_AVR_8 then
    (write16le buf Loc (SRel &&& 0x000000ff), [])
  else if Ty = R_AVR_8_LO8 then
    (write16le buf Loc (sext32 SRel &&& 0xffffff), [])
  else if Ty = R_AVR_8_HI8 then
    (write16le buf Loc ((sext32 SRel >>> 8) &&& 0xffffff), [])
  else if Ty = R_AVR_8_HLO8 then
    (write16le buf Loc ((sext32 SRel >>> 16) &&& 0xffffff), [])
  else if Ty = R_AVR_CALL then
    let SRel := adjustPM SRel
    let X := X ||| (((sext32 SRel &&& 0x10000) ||| ((sext32 SRel <<< 3) &&& 0x1f00000)) >>> 16)
    (write16le (write16le buf Loc X) (Loc + 2) (SRel &&& 0xffff), [])
  else if Ty = R_AVR_16 then
    (write16le buf Loc (SRel &&& 0x00ffff), [])
  else if Ty = R_AVR_16_PM then
    let SRel := adjustPM SRel
    (write16le buf Loc (SRel &&& 0x00ffff), [])
  else if Ty = R_AVR_LDS_STS_16 then
    let SRel := SRel &&& 0x7f
    let X := X ||| ((SRel &&& 0x0f) ||| ((SRel &&& 0x30) <<< 5) ||| ((SRel &&& 0x40) <<< 2))
    (write16le buf Loc X, [])
  else if Ty = R_AVR_PORT6 then
    (write16le buf Loc ((X &&& 0xf9f0) ||| ((SRel &&& 0x30) <<< 5) ||| (SRel &&& 0x0f)), [])
  else if Ty = R_AVR_PORT5 then
    (write16le buf Loc ((X &&& 0xff07) ||| ((SRel &&& 0x1f) <<< 3)), [])
  else
    (buf, [Diag.unrecognizedReloc Loc Ty])

/-- The all-zero output buffer, used for concrete test inputs. -/
def zeroBuf : Nat → Nat := fun _ => 0

/-- A buffer whose 16-bit word at offset 0 is `0x9401` (little-endian). -/
def buf9401 : Nat → Nat := fun j => if j = 0 then 0x01 else if j = 1 then 0x94 else 0

/-- A buffer whose 16-bit word at offset 0 is `0xE0A0` (little-endian). -/
def bufE0A0 : Nat → Nat := fun j => if j = 0 then 0xA0 else if j = 1 then 0xE0 else 0

theorem getRelExpr_known_iff (Ty : Nat) :
    (getRelExpr Ty).2 = [] ↔
      ((Ty = R_AVR_7_PCREL ∨ Ty = R_AVR_13_PCREL) ∨
       (Ty = R_AVR_LO8_LDI ∨ Ty = R_AVR_LDI ∨ Ty = R_AVR_6 ∨
        Ty = R_AVR_6_ADIW ∨ Ty = R_AVR_HI8_LDI ∨ Ty = R_AVR_HH8_LDI ∨
        Ty = R_AVR_MS8_LDI ∨ Ty = R_AVR_LO8_LDI_NEG ∨ Ty = R_AVR_HI8_LDI_NEG ∨
        Ty = R_AVR_HH8_LDI_NEG ∨ Ty = R_AVR_MS8_LDI_NEG ∨ Ty = R_AVR_LO8_LDI_GS ∨
        Ty = R_AVR_LO8_LDI_PM ∨ Ty = R_AVR_HI8_LDI_GS ∨ Ty = R_AVR_HI8_LDI_PM ∨
        Ty = R_AVR_HH8_LDI_PM ∨ Ty = R_AVR_LO8_LDI_PM_NEG ∨ Ty = R_AVR_HI8_LDI_PM_NEG ∨
        Ty = R_AVR_HH8_LDI_PM_NEG ∨ Ty = R_AVR_8 ∨ Ty = R_AVR_8_LO8 ∨
        Ty = R_AVR_8_HI8 ∨ Ty = R_AVR_8_HLO8 ∨ Ty = R_AVR_CALL ∨
        Ty = R_AVR_16 ∨ Ty = R_AVR_16_PM ∨ Ty = R_AVR_LDS_STS_16 ∨
        Ty = R_AVR_PORT6 ∨ Ty = R_AVR_PORT5)) := by
  unfold getRelExpr
  split_ifs with h1 h2
  · exact iff_of_true rfl (Or.inl h1)
  · exact iff_of_true rfl (Or.inr h2)
  · exact iff_of_false (by simp) (fun hc => hc.elim h1 h2)

theorem getRelExpr_unknown (Ty : Nat)
    (h : ¬ ((Ty = R_AVR_7_PCREL ∨ Ty = R_AVR_13_PCREL) ∨
       (Ty = R_AVR_LO8_LDI ∨ Ty = R_AVR_LDI ∨ Ty = R_AVR_6 ∨
        Ty = R_AVR_6_ADIW ∨ Ty = R_AVR_HI8_LDI ∨ Ty = R_AVR_HH8_LDI ∨
        Ty = R_AVR_MS8_LDI ∨ Ty = R_AVR_LO8_LDI_NEG ∨ Ty = R_AVR_HI8_LDI_NEG ∨
        Ty = R_AVR_HH8_LDI_NEG ∨ Ty = R_AVR_MS8_LDI_NEG ∨ Ty = R_AVR_LO8_LDI_GS ∨
        Ty = R_AVR_LO8_LDI_PM ∨ Ty = R_AVR_HI8_LDI_GS ∨ Ty = R_AVR_HI8_LDI_PM ∨
        Ty = R_AVR_HH8_LDI_PM ∨ Ty = R_AVR_LO8_LDI_PM_NEG ∨ Ty = R_AVR_HI8_LDI_PM_NEG ∨
        Ty = R_AVR_HH8_LDI_PM_NEG ∨ Ty = R_AVR_8 ∨ Ty = R_AVR_8_LO8 ∨
        Ty = R_AVR_8_HI8 ∨ Ty = R_AVR_8_HLO8 ∨ Ty = R_AVR_CALL ∨
        Ty = R_AVR_16 ∨ Ty = R_AVR_16_PM ∨ Ty = R_AVR_LDS_STS_16 ∨
        Ty = R_AVR_PORT6 ∨ Ty = R_AVR_PORT5))) :
    getRelExpr Ty = (RelExpr.R_HINT, [Diag.unknownRelocationType Ty]) := by
  unfold getRelExpr
  rw [if_neg (fun hc => h (Or.inl hc)), if_neg (fun hc => h (Or.inr hc))]

theorem relocateOne_unknown (buf : Nat → Nat) (Loc Ty Val : Nat)
    (h : ¬ ((Ty = R_AVR_7_PCREL ∨ Ty = R_AVR_13_PCREL) ∨
       (Ty = R_AVR_LO8_LDI ∨ Ty = R_AVR_LDI ∨ Ty = R_AVR_6 ∨
        Ty = R_AVR_6_ADIW ∨ Ty = R_AVR_HI8_LDI ∨ Ty = R_AVR_HH8_LDI ∨
        Ty = R_AVR_MS8_LDI ∨ Ty = R_AVR_LO8_LDI_NEG ∨ Ty = R_AVR_HI8_LDI_NEG ∨
        Ty = R_AVR_HH8_LDI_NEG ∨ Ty = R_AVR_MS8_LDI_NEG ∨ Ty = R_AVR_LO8_LDI_GS ∨
        Ty = R_AVR_LO8_LDI_PM ∨ Ty = R_AVR_HI8_LDI_GS ∨ Ty = R_AVR_HI8_LDI_PM ∨
        Ty = R_AVR_HH8_LDI_PM ∨ Ty = R_AVR_LO8_LDI_PM_NEG ∨ Ty = R_AVR_HI8_LDI_PM_NEG ∨
        Ty = R_AVR_HH8_LDI_PM_NEG ∨ Ty = R_AVR_8 ∨ Ty = R_AVR_8_LO8 ∨
        Ty = R_AVR_8_HI8 ∨ Ty = R_AVR_8_HLO8 ∨ Ty = R_AVR_CALL ∨
        Ty = R_AVR_16 ∨ Ty = R_AVR_16_PM ∨ Ty = R_AVR_LDS_STS_16 ∨
        Ty = R_AVR_PORT6 ∨ Ty = R_AVR_PORT5))) :
    relocateOne buf Loc Ty Val = (buf, [Diag.unrecognizedReloc Loc Ty]) := by
  push_neg at h
  obtain ⟨⟨n2, n3⟩, n6, n19, n20, n21, n7, n8, n22, n9, n10, n11, n23, n24, n12, n25, n13,
    n14, n15, n16, n17, n26, n27, n28, n29, n18, n4, n5, n33, n34, n35⟩ := h
  simp only [relocateOne, if_neg n2, if_neg n3, if_neg (not_or.mpr ⟨n6, n19⟩), if_neg n20,
    if_neg n21, if_neg n7, if_neg n8, if_neg n22, if_neg n9, if_neg n10, if_neg n11,
    if_neg n23, if_neg (not_or.mpr ⟨n24, n12⟩), if_neg (not_or.mpr ⟨n25, n13⟩), if_neg n14,
    if_neg n15, if_neg n16, if_neg n17, if_neg n26, if_neg n27, if_neg n28, if_neg n29,
    if_neg n18, if_neg n4, if_neg n5, if_neg n33, if_neg n34, if_neg n35]

theorem relocateOne_known_iff (buf : Nat → Nat) (Loc Ty Val : Nat) :
    (relocateOne buf Loc Ty Val).2 = [] ↔
      ((Ty = R_AVR_7_PCREL ∨ Ty = R_AVR_13_PCREL) ∨
       (Ty = R_AVR_LO8_LDI ∨ Ty = R_AVR_LDI ∨ Ty = R_AVR_6 ∨
        Ty = R_AVR_6_ADIW ∨ Ty = R_AVR_HI8_LDI ∨ Ty = R_AVR_HH8_LDI ∨
        Ty = R_AVR_MS8_LDI ∨ Ty = R_AVR_LO8_LDI_NEG ∨ Ty = R_AVR_HI8_LDI_NEG ∨
        Ty = R_AVR_HH8_LDI_NEG ∨ Ty = R_AVR_MS8_LDI_NEG ∨ Ty = R_AVR_LO8_LDI_GS ∨
        Ty = R_AVR_LO8_LDI_PM ∨ Ty = R_AVR_HI8_LDI_GS ∨ Ty = R_AVR_HI8_LDI_PM ∨
        Ty = R_AVR_HH8_LDI_PM ∨ Ty = R_AVR_LO8_LDI_PM_NEG ∨ Ty = R_AVR_HI8_LDI_PM_NEG ∨
        Ty = R_AVR_HH8_LDI_PM_NEG ∨ Ty = R_AVR_8 ∨ Ty = R_AVR_8_LO8 ∨
        Ty = R_AVR_8_HI8 ∨ Ty = R_AVR_8_HLO8 ∨ Ty = R_AVR_CALL ∨
        Ty = R_AVR_16 ∨ Ty = R_AVR_16_PM ∨ Ty = R_AVR_LDS_STS_16 ∨
        Ty = R_AVR_PORT6 ∨ Ty = R_AVR_PORT5)) := by
  constructor
  · intro hempty
    by_contra hmem
    rw [relocateOne_unknown buf Loc Ty Val hmem] at hempty
    exact List.cons_ne_nil _ _ hempty
  · intro hmem
    rcases hmem with ⟨rfl | rfl⟩ | ⟨rfl | rfl | rfl | rfl | rfl | rfl | rfl | rfl | rfl |
      rfl | rfl | rfl | rfl | rfl | rfl | rfl | rfl | rfl | rfl | rfl | rfl | rfl | rfl |
      rfl | rfl | rfl | rfl | rfl | rfl⟩ <;> rfl

/-- C1: table completeness — the set of relocation type codes that
`getRelExpr` accepts without emitting the unknown-relocation diagnostic
is exactly the set of codes that `relocateOne` dispatches to an encoding
rule without emitting the unrecognized-reloc diagnostic; every code
outside that set is rejected by both. -/
theorem C1_table_completeness (buf : Nat → Nat) (Loc Ty Val : Nat) :
    (getRelExpr Ty).2 = [] ↔ (relocateOne buf Loc Ty Val).2 = [] :=
  (getRelExpr_known_iff Ty).trans (relocateOne_known_iff buf Loc Ty Val).symm

/-- C2: `getRelExpr` returns `R_PC` for exactly the two branch kinds
`R_AVR_7_PCREL` and `R_AVR_13_PCREL`, and returns `R_ABS` for every
other kind it recognizes. -/
theorem C2_classifier_classes (Ty : Nat) :
    ((getRelExpr Ty).1 = RelExpr.R_PC ↔ (Ty = R_AVR_7_PCREL ∨ Ty = R_AVR_13_PCREL)) ∧
    ((getRelExpr Ty).2 = [] → ¬ (Ty = R_AVR_7_PCREL ∨ Ty = R_AVR_13_PCREL) →
      (getRelExpr Ty).1 = RelExpr.R_ABS) := by
  unfold getRelExpr
  split_ifs with h1 h2
  · exact ⟨iff_of_true rfl h1, fun _ hn => absurd h1 hn⟩
  · exact ⟨iff_of_false (by decide) h1, fun _ _ => rfl⟩
  · exact ⟨iff_of_false (by decide) h1, fun hempty _ => absurd hempty (by simp)⟩

/-- Witness for C2 at the concrete recognized kind `R_AVR_LO8_LDI`. -/
theorem C2_classifier_classes_w :
    (getRelExpr R_AVR_LO8_LDI).2 = [] ∧ (getRelExpr R_AVR_LO8_LDI).1 = RelExpr.R_ABS :=
  ⟨by decide, (C2_classifier_classes R_AVR_LO8_LDI).2 (by decide) (by decide)⟩

/-- C9: for a relocation type code rejected by the classifier,
`getRelExpr` returns `R_HINT` with exactly one diagnostic, and
`relocateOne` emits exactly one diagnostic and leaves the output buffer
unchanged. -/
theorem C9_unknown_kind (Ty Loc Val : Nat) (buf : Nat → Nat)
    (h : (getRelExpr Ty).2 ≠ []) :
    (getRelExpr Ty).1 = RelExpr.R_HINT ∧ (getRelExpr Ty).2.length = 1 ∧
    (relocateOne buf Loc Ty Val).1 = buf ∧ (relocateOne buf Loc Ty Val).2.length = 1 := by
  have hmem := fun hc => h ((getRelExpr_known_iff Ty).mpr hc)
  rw [getRelExpr_unknown Ty hmem, relocateOne_unknown buf Loc Ty Val hmem]
  exact ⟨rfl, rfl, rfl, rfl⟩

/-- Witness for C9 at the concrete out-of-table code 30 (`R_AVR_DIFF8`). -/
theorem C9_unknown_kind_w :
    (getRelExpr 30).2 ≠ [] ∧
    ((getRelExpr 30).1 = RelExpr.R_HINT ∧ (getRelExpr 30).2.length = 1 ∧
     (relocateOne zeroBuf 0 30 0).1 = zeroBuf ∧ (relocateOne zeroBuf 0 30 0).2.length = 1) :=
  ⟨by decide, C9_unknown_kind 30 0 0 zeroBuf (by decide)⟩

/-- C10: truncation noninterference — the result of `relocateOne`
depends only on the low 16 bits of the resolved value: values congruent
modulo `2 ^ 16` produce identical buffers and diagnostics for every
kind, location and prior buffer contents. -/
theorem C10_truncation_noninterference (buf : Nat → Nat) (Loc Ty V1 V2 : Nat)
    (h : V1 % 65536 = V2 % 65536) :
    relocateOne buf Loc Ty V1 = relocateOne buf Loc Ty V2 := by
  unfold relocateOne
  rw [h]

/-- Witness for C10 at the concrete congruent pair `65659` and `123`
under the long-call kind. -/
theorem C10_truncation_noninterference_w :
    65659 % 65536 = 123 % 65536 ∧
    relocateOne zeroBuf 0 R_AVR_CALL 65659 = relocateOne zeroBuf 0 R_AVR_CALL 123 :=
  ⟨by decide, C10_truncation_noninterference zeroBuf 0 R_AVR_CALL 65659 123 (by decide)⟩

/-- C5: branch-displacement round trip — for the 13-bit PC-relative
branch kind with resolved delta 10 and existing word `0x9401`, the
patched word is `(0x9401 &&& 0xf000) ||| (((10 - 2) >>> 1) &&& 0xfff)`,
which is `0x9004`. -/
theorem C5_branch_round_trip :
    read16le (relocateOne buf9401 0 R_AVR_13_PCREL 10).1 0 =
      ((0x9401 &&& 0xf000) ||| (((10 - 2) >>> 1) &&& 0xfff)) ∧
    read16le (relocateOne buf9401 0 R_AVR_13_PCREL 10).1 0 = 0x9004 := by
  exact ⟨by decide, by decide⟩

/-- C4 counterexample: applying `R_AVR_LO8_LDI` with resolved value
`0x3F7A` onto the existing word `0xE0A0` does not produce `0xE07A`
as the claim states. -/
theorem C4_ldi_example_cex :
    ¬ read16le (relocateOne bufE0A0 0 R_AVR_LO8_LDI 0x3F7A).1 0 = 0xE07A := by
  decide

/-- C4 amended: applying `R_AVR_LO8_LDI` with resolved value `0x3F7A`
onto the existing word `0xE0A0` produces `0xE7AA` (low nibble `0xA` in
bits 0-3, next nibble `0x7` in bits 8-11, other bits of the word
preserved). -/
theorem C4_ldi_example_amended :
    read16le (relocateOne bufE0A0 0 R_AVR_LO8_LDI 0x3F7A).1 0 = 0xE7AA := by
  decide

theorem read16le_write16le (buf : Nat → Nat) (loc v : Nat) :
    read16le (write16le buf loc v) loc = v % 65536 := by
  unfold read16le write16le writeByte
  simp only [if_neg (show loc ≠ loc + 1 by omega), if_pos rfl]
  rw [Nat.shiftRight_eq_div_pow]
  norm_num
  omega

theorem read16le_lt (buf : Nat → Nat) (loc : Nat) : read16le buf loc < 65536 := by
  unfold read16le
  have h1 : buf loc % 256 < 256 := Nat.mod_lt _ (by norm_num)
  have h2 : buf (loc + 1) % 256 < 256 := Nat.mod_lt _ (by norm_num)
  omega

theorem and_mask_shiftLeft (a m s : Nat) : a &&& (m <<< s) = ((a >>> s) &&& m) <<< s := by
  apply Nat.eq_of_testBit_eq
  intro i
  simp only [Nat.testBit_and, Nat.testBit_shiftLeft, Nat.testBit_shiftRight]
  by_cases h : s ≤ i
  · have hi : s + (i - s) = i := by omega
    simp [ge_iff_le, h, hi]
  · simp [ge_iff_le, h]

theorem mod65536_and_xf (V : Nat) : (V % 65536) &&& 0xf = V &&& 0xf := by
  have h4 : (0xf : Nat) = 2 ^ 4 - 1 := by norm_num
  rw [h4, Nat.and_pow_two_sub_one_eq_mod, Nat.and_pow_two_sub_one_eq_mod]
  omega

theorem mod65536_shiftRight4_and_xf (V : Nat) :
    ((V % 65536) >>> 4) &&& 0xf = (V >>> 4) &&& 0xf := by
  have h4 : (0xf : Nat) = 2 ^ 4 - 1 := by norm_num
  rw [h4, Nat.and_pow_two_sub_one_eq_mod, Nat.and_pow_two_sub_one_eq_mod,
    Nat.shiftRight_eq_div_pow, Nat.shiftRight_eq_div_pow]
  norm_num
  omega

theorem shiftLeft4_and_xf00 (p : Nat) : (p <<< 4) &&& 0xf00 = ((p >>> 4) &&& 0xf) <<< 8 := by
  have h : (0xf00 : Nat) = 0xf <<< 8 := by decide
  rw [h, and_mask_shiftLeft]
  congr 1
  congr 1
  rw [Nat.shiftRight_eq_div_pow, Nat.shiftRight_eq_div_pow, Nat.shiftLeft_eq]
  norm_num
  omega

theorem masked_or_f0f0 (W V : Nat) :
    ((W &&& 0xf0f0) ||| (V &&& 0xf) ||| (((V >>> 4) &&& 0xf) <<< 8)) &&& 0xf0f0
      = W &&& 0xf0f0 := by
  have hd : ∀ a b c m : Nat, (a ||| b ||| c) &&& m = (a &&& m) ||| (b &&& m) ||| (c &&& m) := by
    intro a b c m
    rw [Nat.and_comm _ m, Nat.and_or_distrib_left, Nat.and_or_distrib_left,
      Nat.and_comm m a, Nat.and_comm m b, Nat.and_comm m c]
  rw [hd, Nat.and_assoc, show ((0xf0f0 : Nat) &&& 0xf0f0) = 0xf0f0 from by decide,
    Nat.and_assoc, show ((0xf : Nat) &&& 0xf0f0) = 0 from by decide, Nat.and_zero]
  have hsmall : ∀ y < 16, (y <<< 8) &&& 0xf0f0 = 0 := by decide
  rw [hsmall _ (lt_of_le_of_lt Nat.and_le_right (by norm_num)), Nat.or_zero, Nat.or_zero]

theorem relocateOne_LDI_buf (buf : Nat → Nat) (Loc V : Nat) :
    (relocateOne buf Loc R_AVR_LDI V).1
      = write16le buf Loc (calculateForLDI (read16le buf Loc) (V % 65536)) := rfl

theorem relocateOne_LO8_LDI_buf (buf : Nat → Nat) (Loc V : Nat) :
    (relocateOne buf Loc R_AVR_LO8_LDI V).1
      = write16le buf Loc (calculateForLDI (read16le buf Loc) (V % 65536)) := rfl

theorem calculateForLDI_eq (W V : Nat) :
    calculateForLDI W (V % 65536)
      = (W &&& 0xf0f0) ||| (V &&& 0xf) ||| (((V >>> 4) &&& 0xf) <<< 8) := by
  unfold calculateForLDI
  rw [mod65536_and_xf, shiftLeft4_and_xf00, mod65536_shiftRight4_and_xf]

theorem calculateForLDI_lt (W V : Nat) (hW : W < 65536) : calculateForLDI W V < 65536 := by
  unfold calculateForLDI
  have h65536 : (65536 : Nat) = 2 ^ 16 := by norm_num
  rw [h65536]
  apply Nat.or_lt_two_pow
  apply Nat.or_lt_two_pow
  · exact lt_of_le_of_lt Nat.and_le_left (by omega)
  · exact lt_of_le_of_lt Nat.and_le_right (by norm_num)
  · exact lt_of_le_of_lt Nat.and_le_right (by norm_num)

/-- C3: load-immediate nibble law — applying `R_AVR_LDI` or
`R_AVR_LO8_LDI` with resolved value `V` onto the existing word `W` at
the target location writes
`(W &&& 0xf0f0) ||| (V &&& 0xF) ||| (((V >>> 4) &&& 0xF) <<< 8)`;
all bits of `W` under the mask `0xf0f0` are preserved. -/
theorem C3_ldi_nibble_law (buf : Nat → Nat) (Loc V Ty : Nat)
    (ht : Ty = R_AVR_LDI ∨ Ty = R_AVR_LO8_LDI) :
    read16le (relocateOne buf Loc Ty V).1 Loc =
      ((read16le buf Loc &&& 0xf0f0) ||| (V &&& 0xf) ||| (((V >>> 4) &&& 0xf) <<< 8)) ∧
    read16le (relocateOne buf Loc Ty V).1 Loc &&& 0xf0f0 = read16le buf Loc &&& 0xf0f0 := by
  have main : read16le (relocateOne buf Loc Ty V).1 Loc =
      ((read16le buf Loc &&& 0xf0f0) ||| (V &&& 0xf) ||| (((V >>> 4) &&& 0xf) <<< 8)) := by
    rcases ht with rfl | rfl
    · rw [relocateOne_LDI_buf, read16le_write16le,
        Nat.mod_eq_of_lt (calculateForLDI_lt _ _ (read16le_lt buf Loc)), calculateForLDI_eq]
    · rw [relocateOne_LO8_LDI_buf, read16le_write16le,
        Nat.mod_eq_of_lt (calculateForLDI_lt _ _ (read16le_lt buf Loc)), calculateForLDI_eq]
  exact ⟨main, by rw [main, masked_or_f0f0]⟩

/-- Witness for C3 at the concrete kind `R_AVR_LDI`, value `0x3F7A`,
word `0xE0A0`. -/
theorem C3_ldi_nibble_law_w :
    (R_AVR_LDI = R_AVR_LDI ∨ R_AVR_LDI = R_AVR_LO8_LDI) ∧
    (read16le (relocateOne bufE0A0 0 R_AVR_LDI 0x3F7A).1 0 =
      ((read16le bufE0A0 0 &&& 0xf0f0) ||| (0x3F7A &&& 0xf) |||
        (((0x3F7A >>> 4) &&& 0xf) <<< 8)) ∧
     read16le (relocateOne bufE0A0 0 R_AVR_LDI 0x3F7A).1 0 &&& 0xf0f0
       = read16le bufE0A0 0 &&& 0xf0f0) :=
  ⟨Or.inl rfl, C3_ldi_nibble_law bufE0A0 0 0x3F7A R_AVR_LDI (Or.inl rfl)⟩

/-- Conversion of a signed value to the `uint64_t` argument of
`relocateOne` (two's-complement wrap modulo `2 ^ 64`). -/
def toUInt64Pat (v : Int) : Nat := (v % 18446744073709551616).toNat

/-- Negating the signed value before conversion is the same as applying
`adjustNeg` to the truncated 16-bit working pattern. -/
theorem neg_pattern (V : Int) :
    toUInt64Pat (-V) % 65536 = adjustNeg (toUInt64Pat V % 65536) := by
  unfold toUInt64Pat adjustNeg
  omega

theorem relocateOne_eq_LO8_LDI (buf : Nat → Nat) (Loc Val : Nat) :
    relocateOne buf Loc R_AVR_LO8_LDI Val
      = (write16le buf Loc (calculateForLDI (read16le buf Loc) (Val % 65536)), []) := rfl

theorem relocateOne_eq_HI8_LDI (buf : Nat → Nat) (Loc Val : Nat) :
    relocateOne buf Loc R_AVR_HI8_LDI Val
      = (write16le buf Loc (calculateForLDI (read16le buf Loc)
          ((sext32 (Val % 65536) >>> 8) &&& 0xff)), []) := rfl

theorem relocateOne_eq_HH8_LDI (buf : Nat → Nat) (Loc Val : Nat) :
    relocateOne buf Loc R_AVR_HH8_LDI Val
      = (write16le buf Loc (calculateForLDI (read16le buf Loc)
          ((sext32 (Val % 65536) >>> 16) &&& 0xff)), []) := rfl

theorem relocateOne_eq_MS8_LDI (buf : Nat → Nat) (Loc Val : Nat) :
    relocateOne buf Loc R_AVR_MS8_LDI Val
      = (write16le buf Loc (calculateForLDI (read16le buf Loc)
          ((sext32 (Val % 65536) >>> 24) &&& 0xff)), []) := rfl

theorem relocateOne_eq_LO8_LDI_NEG (buf : Nat → Nat) (Loc Val : Nat) :
    relocateOne buf Loc R_AVR_LO8_LDI_NEG Val
      = (write16le buf Loc (calculateForLDI (read16le buf Loc)
          (adjustNeg (Val % 65536))), []) := rfl

theorem relocateOne_eq_HI8_LDI_NEG (buf : Nat → Nat) (Loc Val : Nat) :
    relocateOne buf Loc R_AVR_HI8_LDI_NEG Val
      = (write16le buf Loc (calculateForLDI (read16le buf Loc)
          ((sext32 (adjustNeg (Val % 65536)) >>> 8) &&& 0xff)), []) := rfl

theorem relocateOne_eq_HH8_LDI_NEG (buf : Nat → Nat) (Loc Val : Nat) :
    relocateOne buf Loc R_AVR_HH8_LDI_NEG Val
      = (write16le buf Loc (calculateForLDI (read16le buf Loc)
          ((sext32 (adjustNeg (Val % 65536)) >>> 16) &&& 0xff)), []) := rfl

theorem relocateOne_eq_MS8_LDI_NEG (buf : Nat → Nat) (Loc Val : Nat) :
    relocateOne buf Loc R_AVR_MS8_LDI_NEG Val
      = (write16le buf Loc (calculateForLDI (read16le buf Loc)
          ((sext32 (adjustNeg (Val % 65536)) >>> 24) &&& 0xff)), []) := rfl

theorem relocateOne_eq_LO8_LDI_PM (buf : Nat → Nat) (Loc Val : Nat) :
    relocateOne buf Loc R_AVR_LO8_LDI_PM Val
      = (write16le buf Loc (calculateForLDI (read16le buf Loc)
          (adjustPM (Val % 65536))), []) := rfl

theorem relocateOne_eq_HI8_LDI_PM (buf : Nat → Nat) (Loc Val : Nat) :
    relocateOne buf Loc R_AVR_HI8_LDI_PM Val
      = (write16le buf Loc (calculateForLDI (read16le buf Loc)
          ((sext32 (adjustPM (Val % 65536)) >>> 8) &&& 0xff)), []) := rfl

theorem relocateOne_eq_HH8_LDI_PM (buf : Nat → Nat) (Loc Val : Nat) :
    relocateOne buf Loc R_AVR_HH8_LDI_PM Val
      = (write16le buf Loc (calculateForLDI (read16le buf Loc)
          ((sext32 (adjustPM (Val % 65536)) >>> 16) &&& 0xff)), []) := rfl

theorem relocateOne_eq_LO8_LDI_PM_NEG (buf : Nat → Nat) (Loc Val : Nat) :
    relocateOne buf Loc R_AVR_LO8_LDI_PM_NEG Val
      = (write16le buf Loc (calculateForLDI (read16le buf Loc)
          (adjustPM (adjustNeg (Val % 65536)))), []) := rfl

theorem relocateOne_eq_HI8_LDI_PM_NEG (buf : Nat → Nat) (Loc Val : Nat) :
    relocateOne buf Loc R_AVR_HI8_LDI_PM_NEG Val
      = (write16le buf Loc (calculateForLDI (read16le buf Loc)
          ((sext32 (adjustPM (adjustNeg (Val % 65536))) >>> 8) &&& 0xff)), []) := rfl

theorem relocateOne_eq_HH8_LDI_PM_NEG (buf : Nat → Nat) (Loc Val : Nat) :
    relocateOne buf Loc R_AVR_HH8_LDI_PM_NEG Val
      = (write16le buf Loc (calculateForLDI (read16le buf Loc)
          ((sext32 (adjustPM (adjustNeg (Val % 65536))) >>> 16) &&& 0xff)), []) := rfl

/-- C6: negation law — for every signed value `V` in the 16-bit range,
applying a negated load-immediate kind to `V` produces bit-for-bit the
same result as applying the matching plain kind to `-V`, for all seven
negated/plain pairs. -/
theorem C6_negation_law (V : Int) (Loc : Nat) (buf : Nat → Nat)
    (_hlow : -32768 ≤ V) (_hhigh : V ≤ 32767) :
    (relocateOne buf Loc R_AVR_LO8_LDI_NEG (toUInt64Pat V)
       = relocateOne buf Loc R_AVR_LO8_LDI (toUInt64Pat (-V))) ∧
    (relocateOne buf Loc R_AVR_HI8_LDI_NEG (toUInt64Pat V)
       = relocateOne buf Loc R_AVR_HI8_LDI (toUInt64Pat (-V))) ∧
    (relocateOne buf Loc R_AVR_HH8_LDI_NEG (toUInt64Pat V)
       = relocateOne buf Loc R_AVR_HH8_LDI (toUInt64Pat (-V))) ∧
    (relocateOne buf Loc R_AVR_MS8_LDI_NEG (toUInt64Pat V)
       = relocateOne buf Loc R_AVR_MS8_LDI (toUInt64Pat (-V))) ∧
    (relocateOne buf Loc R_AVR_LO8_LDI_PM_NEG (toUInt64Pat V)
       = relocateOne buf Loc R_AVR_LO8_LDI_PM (toUInt64Pat (-V))) ∧
    (relocateOne buf Loc R_AVR_HI8_LDI_PM_NEG (toUInt64Pat V)
       = relocateOne buf Loc R_AVR_HI8_LDI_PM (toUInt64Pat (-V))) ∧
    (relocateOne buf Loc R_AVR_HH8_LDI_PM_NEG (toUInt64Pat V)
       = relocateOne buf Loc R_AVR_HH8_LDI_PM (toUInt64Pat (-V))) := by
  refine ⟨?_, ?_, ?_, ?_, ?_, ?_, ?_⟩
  · rw [relocateOne_eq_LO8_LDI_NEG, relocateOne_eq_LO8_LDI, neg_pattern V]
  · rw [relocateOne_eq_HI8_LDI_NEG, relocateOne_eq_HI8_LDI, neg_pattern V]
  · rw [relocateOne_eq_HH8_LDI_NEG, relocateOne_eq_HH8_LDI, neg_pattern V]
  · rw [relocateOne_eq_MS8_LDI_NEG, relocateOne_eq_MS8_LDI, neg_pattern V]
  · rw [relocateOne_eq_LO8_LDI_PM_NEG, relocateOne_eq_LO8_LDI_PM, neg_pattern V]
  · rw [relocateOne_eq_HI8_LDI_PM_NEG, relocateOne_eq_HI8_LDI_PM, neg_pattern V]
  · rw [relocateOne_eq_HH8_LDI_PM_NEG, relocateOne_eq_HH8_LDI_PM, neg_pattern V]

/-- Witness for C6 at the concrete in-range value `100`. -/
theorem C6_negation_law_w :
    (-32768 ≤ (100 : Int) ∧ (100 : Int) ≤ 32767) ∧
    ((relocateOne zeroBuf 0 R_AVR_LO8_LDI_NEG (toUInt64Pat 100)
       = relocateOne zeroBuf 0 R_AVR_LO8_LDI (toUInt64Pat (-100))) ∧
     (relocateOne zeroBuf 0 R_AVR_HI8_LDI_NEG (toUInt64Pat 100)
       = relocateOne zeroBuf 0 R_AVR_HI8_LDI (toUInt64Pat (-100))) ∧
     (relocateOne zeroBuf 0 R_AVR_HH8_LDI_NEG (toUInt64Pat 100)
       = relocateOne zeroBuf 0 R_AVR_HH8_LDI (toUInt64Pat (-100))) ∧
     (relocateOne zeroBuf 0 R_AVR_MS8_LDI_NEG (toUInt64Pat 100)
       = relocateOne zeroBuf 0 R_AVR_MS8_LDI (toUInt64Pat (-100))) ∧
     (relocateOne zeroBuf 0 R_AVR_LO8_LDI_PM_NEG (toUInt64Pat 100)
       = relocateOne zeroBuf 0 R_AVR_LO8_LDI_PM (toUInt64Pat (-100))) ∧
     (relocateOne zeroBuf 0 R_AVR_HI8_LDI_PM_NEG (toUInt64Pat 100)
       = relocateOne zeroBuf 0 R_AVR_HI8_LDI_PM (toUInt64Pat (-100))) ∧
     (relocateOne zeroBuf 0 R_AVR_HH8_LDI_PM_NEG (toUInt64Pat 100)
       = relocateOne zeroBuf 0 R_AVR_HH8_LDI_PM (toUInt64Pat (-100)))) :=
  ⟨⟨by decide, by decide⟩, C6_negation_law 100 0 zeroBuf (by decide) (by decide)⟩





/-- The sign extension only looks at the low 16 bits of its argument. -/
theorem sext32_mod (v : Nat) : sext32 (v % 65536) = sext32 v := by
  unfold sext32
  rw [show v % 65536 % 65536 = v % 65536 by omega]

/-- C8 counterexample: the pure-data kind `R_AVR_8_LO8` applied with
value `0x1234` writes the full 16-bit word `0x1234`, not the single
byte `(0x1234 >>> 0) &&& 0xFF` the claim demands. -/
theorem C8_pure_data_cex :
    ¬ read16le (relocateOne zeroBuf 0 R_AVR_8_LO8 0x1234).1 0
        = (0x1234 >>> 0) &&& 0xff := by decide

/-- C8 amended: after applying a pure-data kind the word read back at
the location equals `V &&& 0xFF` for `R_AVR_8`, but for `R_AVR_8_LO8`,
`R_AVR_8_HI8` and `R_AVR_8_HLO8` it equals the low 16 bits of the
32-bit sign extension of the truncated value shifted by the kind's lane
(0, 8 or 16 bits) — a full 16-bit-wide write, not a single byte. -/
theorem C8_pure_data_amended (buf : Nat → Nat) (Loc V : Nat) :
    read16le (relocateOne buf Loc R_AVR_8 V).1 Loc = V &&& 0xff ∧
    read16le (relocateOne buf Loc R_AVR_8_LO8 V).1 Loc = V % 65536 ∧
    read16le (relocateOne buf Loc R_AVR_8_HI8 V).1 Loc = (sext32 V >>> 8) % 65536 ∧
    read16le (relocateOne buf Loc R_AVR_8_HLO8 V).1 Loc = (sext32 V >>> 16) % 65536 := by
  have hff : (0xff : Nat) = 2 ^ 8 - 1 := by norm_num
  have hx : (0xffffff : Nat) = 2 ^ 24 - 1 := by norm_num
  refine ⟨?_, ?_, ?_, ?_⟩
  · rw [show (relocateOne buf Loc R_AVR_8 V).1
        = write16le buf Loc ((V % 65536) &&& 0x000000ff) from rfl]
    rw [read16le_write16le, hff, Nat.and_pow_two_sub_one_eq_mod,
      Nat.and_pow_two_sub_one_eq_mod]
    omega
  · rw [show (relocateOne buf Loc R_AVR_8_LO8 V).1
        = write16le buf Loc (sext32 (V % 65536) &&& 0xffffff) from rfl]
    rw [read16le_write16le, sext32_mod, hx, Nat.and_pow_two_sub_one_eq_mod]
    unfold sext32
    split_ifs <;> omega
  · rw [show (relocateOne buf Loc R_AVR_8_HI8 V).1
        = write16le buf Loc ((sext32 (V % 65536) >>> 8) &&& 0xffffff) from rfl]
    rw [read16le_write16le, sext32_mod, hx, Nat.and_pow_two_sub_one_eq_mod]
    omega
  · rw [show (relocateOne buf Loc R_AVR_8_HLO8 V).1
        = write16le buf Loc ((sext32 (V % 65536) >>> 16) &&& 0xffffff) from rfl]
    rw [read16le_write16le, sext32_mod, hx, Nat.and_pow_two_sub_one_eq_mod]
    omega

theorem read16le_write16le_past (buf : Nat → Nat) (loc v : Nat) :
    read16le (write16le buf (loc + 2) v) loc = read16le buf loc := by
  unfold read16le write16le writeByte
  simp only [if_neg (show loc ≠ loc + 2 + 1 by omega), if_neg (show loc ≠ loc + 2 by omega),
    if_neg (show loc + 1 ≠ loc + 2 + 1 by omega), if_neg (show loc + 1 ≠ loc + 2 by omega)]

theorem adjustPM_lt (v : Nat) : adjustPM v < 65536 :=
  Nat.mod_lt _ (by norm_num)

/-- The two high-bit fields merged into the first word of an
`R_AVR_CALL` pair are exactly the sign-replication bits of the 16-bit
word address: `0x1f1` when it is negative, `0` otherwise. -/
theorem call_hibits (w : Nat) (hw : w < 65536) :
    ((sext32 w &&& 0x10000) ||| ((sext32 w <<< 3) &&& 0x1f00000)) >>> 16
      = if 32768 ≤ w then 0x1f1 else 0 := by
  unfold sext32
  rw [Nat.mod_eq_of_lt hw]
  split_ifs with hs
  · rw [show (0x10000 : Nat) = 1 <<< 16 from by decide, and_mask_shiftLeft,
      show (0x1f00000 : Nat) = 0x1f <<< 20 from by decide, and_mask_shiftLeft]
    rw [show (w + 0xffff0000) >>> 16 = 65535 from by
      rw [Nat.shiftRight_eq_div_pow]; norm_num; omega]
    rw [show ((w + 0xffff0000) <<< 3) >>> 20 = 32767 from by
      rw [Nat.shiftLeft_eq, Nat.shiftRight_eq_div_pow]; norm_num; omega]
    decide
  · rw [show (0x10000 : Nat) = 1 <<< 16 from by decide, and_mask_shiftLeft,
      show (0x1f00000 : Nat) = 0x1f <<< 20 from by decide, and_mask_shiftLeft]
    rw [show w >>> 16 = 0 from by rw [Nat.shiftRight_eq_div_pow]; norm_num; omega]
    rw [show (w <<< 3) >>> 20 = 0 from by
      rw [Nat.shiftLeft_eq, Nat.shiftRight_eq_div_pow]; norm_num; omega]
    decide

theorem and_submask_zero (X m1 m2 : Nat) (h : X &&& m1 = 0) (hsub : m1 &&& m2 = m2) :
    X &&& m2 = 0 := by
  rw [← hsub, ← Nat.and_assoc, h, Nat.zero_and]

theorem nat_or_and_right (a b c : Nat) : (a ||| b) &&& c = (a &&& c) ||| (b &&& c) := by
  rw [Nat.and_comm _ c, Nat.and_or_distrib_left, Nat.and_comm c a, Nat.and_comm c b]

theorem shiftRight4_and_1f (X : Nat) : (X >>> 4) &&& 0x1f = (X &&& 0x1f0) >>> 4 := by
  rw [show (0x1f0 : Nat) = 0x1f <<< 4 from by decide, and_mask_shiftLeft,
    Nat.shiftLeft_shiftRight]

/-- C7 counterexample: for `R_AVR_CALL` with resolved value `0x20002`,
whose program-memory word address `0x10001` has bit 16 set, the
two-word bit-extraction of the patched output does not recover the
word address `resolvedValue >>> 1`: the 16-bit truncation of the value
happens before the word-address shift. -/
theorem C7_call_cex :
    ¬ (((read16le (relocateOne zeroBuf 0 R_AVR_CALL 0x20002).1 0 &&& 0x1) <<< 16) |||
       (((read16le (relocateOne zeroBuf 0 R_AVR_CALL 0x20002).1 0 >>> 4) &&& 0x1f) <<< 17) |||
       read16le (relocateOne zeroBuf 0 R_AVR_CALL 0x20002).1 2
        = 0x20002 >>> 1) := by decide

/-- C7 amended: `R_AVR_CALL` computes the word address from the
truncated 16-bit value.  Onto a first word whose two target fields
(bit 0 and bits 4-8) are clear, it writes that 16-bit word address
into the word at `location + 2` and the sign-replication bits of its
32-bit promotion (bit 16 and bits 17-21, all copies of the sign bit)
into the two fields of the first word, so the two-word bit-extraction
recovers the low 22 bits of the sign extension of the 16-bit word
address, not the word address of the untruncated value. -/
theorem C7_call_amended (buf : Nat → Nat) (Loc V : Nat)
    (hX : read16le buf Loc &&& 0x1f1 = 0) :
    read16le (relocateOne buf Loc R_AVR_CALL V).1 (Loc + 2) = adjustPM (V % 65536) ∧
    ((read16le (relocateOne buf Loc R_AVR_CALL V).1 Loc &&& 0x1) <<< 16) |||
      (((read16le (relocateOne buf Loc R_AVR_CALL V).1 Loc >>> 4) &&& 0x1f) <<< 17) |||
      read16le (relocateOne buf Loc R_AVR_CALL V).1 (Loc + 2)
      = sext32 (adjustPM (V % 65536)) &&& 0x3fffff := by
  have h16 : (65536 : Nat) = 2 ^ 16 := by norm_num
  have hwalt : adjustPM (V % 65536) < 65536 := adjustPM_lt _
  have hbuf : (relocateOne buf Loc R_AVR_CALL V).1
      = write16le (write16le buf Loc (read16le buf Loc |||
          (if 32768 ≤ adjustPM (V % 65536) then 0x1f1 else 0))) (Loc + 2)
          (adjustPM (V % 65536) &&& 0xffff) := by
    rw [show (relocateOne buf Loc R_AVR_CALL V).1
        = write16le (write16le buf Loc (read16le buf Loc |||
            (((sext32 (adjustPM (V % 65536)) &&& 0x10000) |||
              ((sext32 (adjustPM (V % 65536)) <<< 3) &&& 0x1f00000)) >>> 16))) (Loc + 2)
            (adjustPM (V % 65536) &&& 0xffff) from rfl,
      call_hibits _ hwalt]
  have hW2 : read16le (relocateOne buf Loc R_AVR_CALL V).1 (Loc + 2)
      = adjustPM (V % 65536) := by
    rw [hbuf, read16le_write16le,
      show (0xffff : Nat) = 2 ^ 16 - 1 from by norm_num,
      Nat.and_pow_two_sub_one_of_lt_two_pow (h16 ▸ hwalt), Nat.mod_eq_of_lt hwalt]
  have hW1 : read16le (relocateOne buf Loc R_AVR_CALL V).1 Loc
      = read16le buf Loc ||| (if 32768 ≤ adjustPM (V % 65536) then 0x1f1 else 0) := by
    rw [hbuf, read16le_write16le_past, read16le_write16le]
    apply Nat.mod_eq_of_lt
    rw [h16]
    apply Nat.or_lt_two_pow (h16 ▸ read16le_lt buf Loc)
    split_ifs <;> norm_num
  refine ⟨hW2, ?_⟩
  rw [hW1, hW2]
  by_cases hs : 32768 ≤ adjustPM (V % 65536)
  · rw [if_pos hs]
    rw [nat_or_and_right, and_submask_zero _ 0x1f1 0x1 hX (by decide), Nat.zero_or,
      show ((0x1f1 : Nat) &&& 0x1) = 1 from by decide]
    rw [shiftRight4_and_1f, nat_or_and_right,
      and_submask_zero _ 0x1f1 0x1f0 hX (by decide), Nat.zero_or,
      show ((0x1f1 : Nat) &&& 0x1f0) = 0x1f0 from by decide,
      show ((0x1f0 : Nat) >>> 4) = 0x1f from by decide]
    rw [show ((1 : Nat) <<< 16 ||| (0x1f <<< 17)) = 2 ^ 16 * 63 from by decide,
      ← Nat.mul_add_lt_is_or (h16 ▸ hwalt)]
    unfold sext32
    rw [Nat.mod_eq_of_lt hwalt, if_pos hs,
      show (0x3fffff : Nat) = 2 ^ 22 - 1 from by norm_num,
      Nat.and_pow_two_sub_one_eq_mod]
    omega
  · rw [if_neg hs, Nat.or_zero]
    rw [and_submask_zero _ 0x1f1 0x1 hX (by decide),
      shiftRight4_and_1f, and_submask_zero _ 0x1f1 0x1f0 hX (by decide),
      show ((0 : Nat) >>> 4) = 0 from by decide,
      Nat.zero_shiftLeft, Nat.zero_shiftLeft, Nat.zero_or, Nat.zero_or]
    unfold sext32
    rw [Nat.mod_eq_of_lt hwalt, if_neg hs,
      show (0x3fffff : Nat) = 2 ^ 22 - 1 from by norm_num,
      Nat.and_pow_two_sub_one_of_lt_two_pow (by omega)]

/-- Witness for C7 (amended) at `V = 0xFFFE` on the zero buffer, where
the truncated word address `0xFFFF` is negative. -/
theorem C7_call_amended_w :
    (read16le zeroBuf 0 &&& 0x1f1 = 0) ∧
    (read16le (relocateOne zeroBuf 0 R_AVR_CALL 0xFFFE).1 (0 + 2)
        = adjustPM (0xFFFE % 65536) ∧
     ((read16le (relocateOne zeroBuf 0 R_AVR_CALL 0xFFFE).1 0 &&& 0x1) <<< 16) |||
       (((read16le (relocateOne zeroBuf 0 R_AVR_CALL 0xFFFE).1 0 >>> 4) &&& 0x1f) <<< 17) |||
       read16le (relocateOne zeroBuf 0 R_AVR_CALL 0xFFFE).1 (0 + 2)
       = sext32 (adjustPM (0xFFFE % 65536)) &&& 0x3fffff) :=
  ⟨by decide, C7_call_amended zeroBuf 0 0xFFFE (by decide)⟩
